import Mathlib

set_option maxRecDepth 10000

/-!
Verification development for the WhatsApp→Supabase media ingestion and
storage-synchronization pipeline.

Each definition below is a shallow embedding of a function of the Python
source, with the source file and line range named in its doc comment.
External capabilities (filesystem, object store, clock, browser) are
passed in explicitly as environment records, so every embedded function
is pure and executable.
-/

/-- A row of the `files` table.  Field names follow the Python dict keys
used across the services (`file_upload_service.py`, `storage_service.py`,
`file_upload.py`).  `storage_path` initially holds the local source path
and is overwritten with the remote destination on a successful upload;
`uploaded` is the sync flag; `upload_attempts` the retry counter. -/
structure FileRecord where
  id : Nat
  user_id : String
  filename : Option String := none
  local_path : Option String := none
  storage_path : Option String := none
  phone_number : String := ""
  file_hash : String := ""
  mime_type : Option String := none
  size : Nat := 0
  media_type : Option String := none
  uploaded : Bool := false
  upload_error : Option String := none
  storage_url : Option String := none
  upload_attempts : Nat := 0
  updated_at : String := ""
deriving DecidableEq, Repr

/-- Python truthiness of an optional string: `None` and `""` are falsy. -/
def strFalsy : Option String → Bool
  | none => true
  | some s => s == ""

/-- `a or b` on optional strings with Python truthiness
(`file_data.get("local_path") or file_data.get("storage_path")`). -/
def orFalsy (a b : Option String) : Option String :=
  if strFalsy a then b else a

/-- Split a character list at every occurrence of `sep`
(`str.split(sep)` with a one-character separator). -/
def splitChar (sep : Char) : List Char → List (List Char)
  | [] => [[]]
  | c :: rest =>
    let r := splitChar sep rest
    if c = sep then [] :: r
    else (c :: r.headD []) :: r.tail

/-- Join character lists with `sep` between them (inverse of
`splitChar`). -/
def joinChar (sep : Char) : List (List Char) → List Char
  | [] => []
  | [x] => x
  | x :: y :: rest => x ++ sep :: joinChar sep (y :: rest)

/-- `os.path.basename`: the part after the last `/`. -/
def pathBase (p : String) : String :=
  String.mk ((splitChar '/' p.toList).getLastD [])

/-- `os.path.dirname`: the part before the last `/` (empty when there is
no separator).  Faithful for the relative bucket paths used here. -/
def pathDir (p : String) : String :=
  let parts := splitChar '/' p.toList
  if parts.length ≤ 1 then "" else String.mk (joinChar '/' parts.dropLast)

/-- Python's `pat in hay` on character lists: `pat` occurs contiguously
inside `hay`. -/
def containsSub (pat : List Char) : List Char → Bool
  | [] => pat.isPrefixOf []
  | c :: rest => pat.isPrefixOf (c :: rest) || containsSub pat rest

/-- Index of the last occurrence of `c` in `l` (Python `str.rfind`). -/
def lastIdxOf (l : List Char) (c : Char) : Option Nat :=
  l.enum.foldl (fun acc p => if p.2 = c then some p.1 else acc) none

/-- `os.path.splitext`: split off the extension at the last dot of the
final path component, ignoring leading dots of that component (mirrors
CPython `genericpath._splitext`). -/
def splitExt (p : String) : String × String :=
  let cs := p.toList
  match lastIdxOf cs '.' with
  | none => (p, "")
  | some di =>
    let fi := match lastIdxOf cs '/' with
      | none => 0
      | some si => si + 1
    if fi ≤ di ∧ ((cs.drop fi).take (di - fi)).any (fun c => c ≠ '.') then
      (String.mk (cs.take di), String.mk (cs.drop di))
    else (p, "")

/-! ## Upload coordinator `FileUploadService.sync_files_to_storage`
(`app/services/file_upload_service.py`, lines 21–158). -/

/-- Outcome of the storage `upload` call for a given destination path:
it returns normally, raises `TimeoutError`, or raises some other
exception carrying message `msg`. -/
inductive UploadOutcome
  | ok
  | timeout
  | err (msg : String)
deriving DecidableEq, Repr

/-- External world consulted by `sync_files_to_storage`: local
filesystem existence, the storage upload call, public-URL derivation,
and the two `time.strftime` timestamps (path format `%Y%m%d%H%M%S`,
record format `%Y-%m-%dT%H:%M:%SZ`). -/
structure SyncEnv where
  fsExists : String → Bool
  uploadOutcome : String → UploadOutcome
  publicUrl : String → String
  tsPath : String
  tsIso : String

/-- The statistics dictionary built by `sync_files_to_storage`. -/
structure SyncStats where
  total : Nat := 0
  successful : Nat := 0
  errors : Nat := 0
  skipped_duplicates : Nat := 0
  timeouts : Nat := 0
deriving DecidableEq, Repr

/-- State threaded through the per-file loop: the `files` table, the log
of storage upload calls performed (file id, destination path), and the
running statistics. -/
structure SyncState where
  db : List FileRecord
  uploads : List (Nat × String) := []
  stats : SyncStats := {}
deriving DecidableEq, Repr

/-- `table("files").update(patch).eq("id", fid)`. -/
def dbUpdate (db : List FileRecord) (fid : Nat) (patch : FileRecord → FileRecord) :
    List FileRecord :=
  db.map fun r => if r.id = fid then patch r else r

/-- The duplicate query of line 77:
`.eq("file_hash", h).eq("uploaded", True).neq("id", fid)` —
note: no owner filter. -/
def dupQuery (db : List FileRecord) (h : String) (fid : Nat) : List FileRecord :=
  db.filter fun r => r.file_hash == h && r.uploaded && r.id != fid

/-- Body of the `for` loop of `sync_files_to_storage` (lines 45–155) for
one snapshot record `f`. -/
def processOne (env : SyncEnv) (uid : String) (st : SyncState) (f : FileRecord) :
    SyncState :=
  -- lines 54–57: skip if already uploaded
  if f.uploaded then
    { st with stats := { st.stats with
        skipped_duplicates := st.stats.skipped_duplicates + 1 } }
  -- lines 59–72: local existence check
  else if strFalsy f.storage_path ∨ env.fsExists ((f.storage_path).getD "") = false then
    { st with
      db := dbUpdate st.db f.id fun r =>
        { r with upload_error := some "File not found locally" },
      stats := { st.stats with errors := st.stats.errors + 1 } }
  else
    -- lines 74–94: content-hash duplicate check (no user filter!)
    match (if f.file_hash == "" then [] else dupQuery st.db f.file_hash f.id).head? with
    | some d =>
      { st with
        db := dbUpdate st.db f.id fun r =>
          { r with storage_url := d.storage_url, uploaded := true,
                   upload_error := none, updated_at := env.tsIso },
        stats := { st.stats with
          skipped_duplicates := st.stats.skipped_duplicates + 1 } }
    | none =>
      -- lines 96–155: upload
      let lp := (f.storage_path).getD ""
      let fname := pathBase lp
      let dest := uid ++ "/" ++ env.tsPath ++ "_" ++ fname
      match env.uploadOutcome dest with
      | .ok =>
        let url := env.publicUrl dest
        { st with
          db := dbUpdate st.db f.id fun r =>
            { r with storage_url := some url, storage_path := some dest,
                     uploaded := true, upload_error := none,
                     updated_at := env.tsIso },
          uploads := st.uploads ++ [(f.id, dest)],
          stats := { st.stats with successful := st.stats.successful + 1 } }
      | .timeout =>
        { st with
          db := dbUpdate st.db f.id fun r =>
            { r with upload_error := some "Upload timeout" },
          uploads := st.uploads ++ [(f.id, dest)],
          stats := { st.stats with timeouts := st.stats.timeouts + 1 } }
      | .err m =>
        { st with
          db := dbUpdate st.db f.id fun r =>
            { r with upload_error := some (String.mk (m.toList.take 255)) },
          uploads := st.uploads ++ [(f.id, dest)],
          stats := { st.stats with errors := st.stats.errors + 1 } }

/-- `FileUploadService.sync_files_to_storage(files, user_id)`: fold the
per-file body over the snapshot list `files` against database `db`. -/
def syncFilesToStorage (env : SyncEnv) (uid : String) (db : List FileRecord)
    (files : List FileRecord) : SyncState :=
  files.foldl (processOne env uid) { db := db, stats := { total := files.length } }

/-! ### Claim C1 -/

/-- The property of claim C1 as stated: whenever the store holds another
record with the *same owner*, same hash and `uploaded`, the current
record ends the pass synced carrying *that* record's remote path and
URL, with no upload performed for it. -/
def C1Claim (env : SyncEnv) (uid : String) (db : List FileRecord)
    (files : List FileRecord) : Prop :=
  ∀ f ∈ files, f.uploaded = false → f.file_hash ≠ "" →
    ∀ d ∈ db, d.id ≠ f.id → d.user_id = f.user_id → d.file_hash = f.file_hash →
      d.uploaded = true →
        (∃ r ∈ (syncFilesToStorage env uid db files).db,
          r.id = f.id ∧ r.uploaded = true ∧
          r.storage_url = d.storage_url ∧ r.storage_path = d.storage_path) ∧
        (∀ u ∈ (syncFilesToStorage env uid db files).uploads, u.1 ≠ f.id)

/-- Environment for the C1 counterexample: only `/local/b.jpg` exists
locally; uploads would succeed. -/
def c1Env : SyncEnv where
  fsExists := fun p => p == "/local/b.jpg"
  uploadOutcome := fun _ => .ok
  publicUrl := fun p => "https://cdn/" ++ p
  tsPath := "TS"
  tsIso := "TI"

/-- Unsynced record of owner `u` whose local file is gone. -/
def c1f1 : FileRecord :=
  { id := 1, user_id := "u", storage_path := some "/local/a.jpg", file_hash := "h" }

/-- Unsynced record of owner `u` whose local file is present. -/
def c1f2 : FileRecord :=
  { id := 2, user_id := "u", storage_path := some "/local/b.jpg", file_hash := "h" }

/-- Synced record of a *different* owner `v` with the same hash; it
precedes the same-owner duplicate in store order. -/
def c1d1 : FileRecord :=
  { id := 3, user_id := "v", file_hash := "h", uploaded := true,
    storage_url := some "URL1", storage_path := some "v/x.jpg" }

/-- Synced record of the *same* owner `u` with the same hash. -/
def c1d2 : FileRecord :=
  { id := 4, user_id := "u", file_hash := "h", uploaded := true,
    storage_url := some "URL2", storage_path := some "u/x.jpg" }

/-- Metadata store for the C1 counterexample. -/
def c1Db : List FileRecord := [c1f1, c1f2, c1d1, c1d2]

/-- Batch processed in the C1 counterexample. -/
def c1Files : List FileRecord := [c1f1, c1f2]

/-- C1, counterexample.  On this input the claim fails three ways:
record 1 has a same-owner synced duplicate (id 4) but its local file is
missing, so the pass marks it `sync_error` instead of synced; record 2
is deduplicated but receives the URL of the *other owner's* record
(id 3, first same-hash match — the query of
`file_upload_service.py:77` has no owner filter), not the same-owner
record's URL, and its remote path is not copied at all (only
`storage_url` is written). -/
theorem c1_counterexample : ¬ C1Claim c1Env "u" c1Db c1Files := by
  unfold C1Claim
  decide

/-- C1 (amended): during a sync pass, a record not yet synced, with a
non-empty hash and a *present local file*, for which the store holds any
other record with the same hash and status synced (the owner is not
consulted), is updated with the *first* such record's remote URL (the
remote path is not copied), marked synced with its error cleared,
counted as a skipped duplicate, and no upload is performed for it. -/
theorem c1_dedup_amended (env : SyncEnv) (uid : String) (st : SyncState)
    (f d : FileRecord) (lp : String)
    (h1 : f.uploaded = false)
    (h2 : f.file_hash ≠ "")
    (h3 : f.storage_path = some lp) (h4 : lp ≠ "") (h5 : env.fsExists lp = true)
    (hd : (dupQuery st.db f.file_hash f.id).head? = some d) :
    processOne env uid st f =
      { st with
        db := dbUpdate st.db f.id fun r =>
          { r with storage_url := d.storage_url, uploaded := true,
                   upload_error := none, updated_at := env.tsIso },
        stats := { st.stats with
          skipped_duplicates := st.stats.skipped_duplicates + 1 } } := by
  have h2' : (f.file_hash == "") = false := beq_eq_false_iff_ne.mpr h2
  have h4' : (lp == "") = false := beq_eq_false_iff_ne.mpr h4
  unfold processOne
  rw [h1, h3]
  simp [strFalsy, h5, h4', h2', hd]

/-- Witness for `c1_dedup_amended` at a concrete input. -/
theorem c1_dedup_amended_witness :
    processOne c1Env "u" { db := c1Db } c1f2 =
      { db := dbUpdate c1Db 2 fun r =>
          { r with storage_url := some "URL1", uploaded := true,
                   upload_error := none, updated_at := "TI" },
        uploads := [],
        stats := { skipped_duplicates := 1 } } := by
  rw [c1_dedup_amended c1Env "u" { db := c1Db } c1f2 c1d1 "/local/b.jpg"
    (by decide) (by decide) (by decide) (by decide) (by decide) (by decide)]
  decide

/-! ### Claim C6 -/

/-- C6: a record whose local source is missing (or whose path is empty)
is marked with error message "File not found locally" (which contains
"not found"); the retry counters and sync flags of every record are
unchanged, no upload is attempted, and the fold continues with the
remaining records of the batch. -/
theorem c6_missing_local (env : SyncEnv) (uid : String) (st : SyncState)
    (f : FileRecord) (rest : List FileRecord)
    (h1 : f.uploaded = false)
    (h2 : strFalsy f.storage_path = true
          ∨ env.fsExists ((f.storage_path).getD "") = false) :
    processOne env uid st f =
      { st with
        db := dbUpdate st.db f.id fun r =>
          { r with upload_error := some "File not found locally" },
        stats := { st.stats with errors := st.stats.errors + 1 } }
    ∧ (processOne env uid st f).uploads = st.uploads
    ∧ (processOne env uid st f).db.map (fun r => r.upload_attempts)
        = st.db.map (fun r => r.upload_attempts)
    ∧ (processOne env uid st f).db.map (fun r => r.uploaded)
        = st.db.map (fun r => r.uploaded)
    ∧ containsSub ("not found".toList) ("File not found locally".toList) = true
    ∧ List.foldl (processOne env uid) st (f :: rest)
        = List.foldl (processOne env uid) (processOne env uid st f) rest := by
  have hstep : processOne env uid st f =
      { st with
        db := dbUpdate st.db f.id fun r =>
          { r with upload_error := some "File not found locally" },
        stats := { st.stats with errors := st.stats.errors + 1 } } := by
    unfold processOne
    rw [h1]
    simp only [Bool.false_eq_true, if_false]
    rw [if_pos]
    rcases h2 with h | h
    · exact Or.inl h
    · exact Or.inr h
  refine ⟨hstep, ?_, ?_, ?_, by decide, rfl⟩
  · rw [hstep]
  · rw [hstep]
    simp [dbUpdate, apply_ite (f := fun r : FileRecord => r.upload_attempts)]
  · rw [hstep]
    simp [dbUpdate, apply_ite (f := fun r : FileRecord => r.uploaded)]

/-- Witness for `c6_missing_local` at a concrete input. -/
theorem c6_missing_local_witness :
    processOne c1Env "u" { db := c1Db } c1f1 =
      { db := dbUpdate c1Db 1 fun r =>
          { r with upload_error := some "File not found locally" },
        uploads := [],
        stats := { errors := 1 } } := by
  exact (c6_missing_local c1Env "u" { db := c1Db } c1f1 []
    (by decide) (Or.inr (by decide))).1

/-! ## Per-record uploader `StorageService.upload_file`
(`app/services/storage_service.py`, lines 21–179). -/

/-- Outcome of the object-store `upload(path, …)` call: it can return
normally with the object subsequently visible to a directory listing
(`okVisible`), return normally while the object does not show up in the
listing (`okInvisible`, the "reported success without verified
presence" situation), raise the Supabase duplicate error
(`{"error": "Duplicate"}`), or raise any other exception.  The textual
payload of the duplicate exception is abstracted as `"Duplicate"`. -/
inductive PutOutcome
  | okVisible
  | okInvisible
  | dupErr
  | errOther (msg : String)
deriving DecidableEq, Repr

/-- `env.putOutcome p` reports success (returns without raising). -/
def putReportsOk : PutOutcome → Bool
  | .okVisible => true
  | .okInvisible => true
  | .dupErr => false
  | .errOther _ => false

/-- External world of `StorageService.upload_file`: local filesystem,
the current bucket contents, the upload call, URL derivation and the
two timestamps (`%Y%m%d%H%M%S` for alternate names,
`datetime.utcnow().isoformat()` for records).  The content-type guess
is not modelled: it only feeds the upload options. -/
structure StoreEnv where
  fsExists : String → Bool
  objects : List String
  putOutcome : String → PutOutcome
  publicUrl : String → String
  ts : String
  tsIso : String

/-- `storage.from_(bucket).list(d)` restricted to the names: the base
names of the objects whose parent directory is `d`. -/
def objNames (objs : List String) (d : String) : List String :=
  (objs.filter fun o => pathDir o == d).map pathBase

/-- The existence probe of lines 44–64 and the verification of
lines 99–108: list the destination's parent (`dirname or "/"`) and look
for an exact base-name match. -/
def probeFinds (objs : List String) (p : String) : Bool :=
  (objNames objs (if pathDir p == "" then "/" else pathDir p)).contains (pathBase p)

/-- `local_path = file_data.get("local_path") or file_data.get("storage_path")`
(line 32). -/
def effLocal (fd : FileRecord) : Option String :=
  orFalsy fd.local_path fd.storage_path

/-- `phone_number.replace("+", "").replace(" ", "")` (line 40): both
replacements delete single characters, so they amount to filtering out
every `+` and space. -/
def cleanPhone (fd : FileRecord) : String :=
  String.mk (fd.phone_number.toList.filter fun c => c ≠ '+' ∧ c ≠ ' ')

/-- `filename = file_data.get("filename") or os.path.basename(local_path)`
(line 41). -/
def destName (fd : FileRecord) : String :=
  (orFalsy fd.filename (some (pathBase ((effLocal fd).getD "")))).getD ""

/-- `storage_path = f"{phone_number}/{filename}"` (line 42). -/
def destPath (fd : FileRecord) : String :=
  cleanPhone fd ++ "/" ++ destName fd

/-- The alternate destination of lines 137–140: timestamp inserted
between base name and extension of the filename. -/
def altPath (env : StoreEnv) (fd : FileRecord) : String :=
  let pr := splitExt (destName fd)
  cleanPhone fd ++ "/" ++ (pr.1 ++ "_" ++ env.ts ++ pr.2)

/-- Result dictionary of `upload_file`. -/
structure UploadResult where
  success : Bool
  error : Option String := none
  storage_path : Option String := none
  url : Option String := none
  status : Option String := none
deriving DecidableEq, Repr

/-- Full outcome of a `upload_file` call: the returned dictionary, the
`files` table, the bucket contents, and the log of `upload` calls
performed (in order). -/
structure StoreRun where
  result : UploadResult
  db : List FileRecord
  objects : List String
  puts : List String := []
deriving DecidableEq, Repr

/-- Verification step of lines 99–127: re-list the parent directory;
on a hit update the record and succeed, otherwise fail with
"Upload verification failed" and leave the record untouched. -/
def uploadVerify (env : StoreEnv) (db : List FileRecord) (fid : Nat) (sp : String)
    (objs : List String) : StoreRun :=
  if probeFinds objs sp then
    let url := env.publicUrl sp
    { result := { success := true, storage_path := some sp, url := some url },
      db := dbUpdate db fid fun r =>
        { r with uploaded := true, storage_path := some sp,
                 storage_url := some url, updated_at := env.tsIso },
      objects := objs, puts := [sp] }
  else
    { result := { success := false, error := some "Upload verification failed" },
      db := db, objects := objs, puts := [sp] }

/-- `StorageService.upload_file(file_id)` (lines 21–179). -/
def uploadFile (env : StoreEnv) (db : List FileRecord) (fid : Nat) : StoreRun :=
  match db.find? (fun r => r.id == fid) with
  | none =>
    { result := { success := false, error := some "File not found" },
      db := db, objects := env.objects }
  | some fd =>
    -- lines 32–36: local existence
    if strFalsy (effLocal fd) ∨ env.fsExists ((effLocal fd).getD "") = false then
      { result := { success := false, error := some "Local file not found" },
        db := db, objects := env.objects }
    else
      let sp := destPath fd
      -- lines 44–76: reliable existence probe; skip upload on a hit
      if probeFinds env.objects sp then
        { result := { success := true, storage_path := some sp,
                      status := some "already_exists" },
          db := dbUpdate db fid fun r =>
            { r with uploaded := true, storage_path := some sp,
                     updated_at := env.tsIso },
          objects := env.objects }
      else
        -- lines 78–127: upload then verify
        match env.putOutcome sp with
        | .okVisible => uploadVerify env db fid sp (sp :: env.objects)
        | .okInvisible => uploadVerify env db fid sp env.objects
        | .dupErr =>
          -- lines 129–165: duplicate error → single retry at an
          -- alternate timestamped path, with NO verification step
          let np := altPath env fd
          match env.putOutcome np with
          | .okVisible =>
            let url := env.publicUrl np
            { result := { success := true, storage_path := some np, url := some url },
              db := dbUpdate db fid fun r =>
                { r with uploaded := true, storage_path := some np,
                         storage_url := some url, updated_at := env.tsIso },
              objects := np :: env.objects, puts := [sp, np] }
          | .okInvisible =>
            let url := env.publicUrl np
            { result := { success := true, storage_path := some np, url := some url },
              db := dbUpdate db fid fun r =>
                { r with uploaded := true, storage_path := some np,
                         storage_url := some url, updated_at := env.tsIso },
              objects := env.objects, puts := [sp, np] }
          | .dupErr =>
            { result := { success := false,
                          error := some ("Alternative upload failed: " ++ "Duplicate") },
              db := db, objects := env.objects, puts := [sp, np] }
          | .errOther m =>
            { result := { success := false,
                          error := some ("Alternative upload failed: " ++ m) },
              db := db, objects := env.objects, puts := [sp, np] }
        | .errOther m =>
          -- lines 167–175: generic failure → increment the retry counter
          { result := { success := false, error := some m },
            db := dbUpdate db fid fun r =>
              { r with upload_attempts := fd.upload_attempts + 1,
                       updated_at := env.tsIso },
            objects := env.objects, puts := [sp] }

/-! ### Claim C2 -/

/-- The property of claim C2 as stated: whenever an upload call reported
success but the existence probe does not find the object in the
resulting bucket state, the operation fails and the record is not
marked synced. -/
def C2Claim (env : StoreEnv) (db : List FileRecord) (fid : Nat) : Prop :=
  ∀ p ∈ (uploadFile env db fid).puts,
    putReportsOk (env.putOutcome p) = true →
    probeFinds (uploadFile env db fid).objects p = false →
      (uploadFile env db fid).result.success = false ∧
      ∀ r ∈ (uploadFile env db fid).db, r.id = fid → r.uploaded = false

/-- Unsynced record used for the C2 counterexample. -/
def c2fd : FileRecord :=
  { id := 1, user_id := "u", phone_number := "123", filename := some "a.jpg",
    local_path := some "/l/a.jpg" }

/-- Environment for the C2 counterexample: empty bucket, the first
destination collides, any other upload reports success but never
becomes visible to the listing. -/
def c2Env : StoreEnv where
  fsExists := fun p => p == "/l/a.jpg"
  objects := []
  putOutcome := fun p => if p == "123/a.jpg" then .dupErr else .okInvisible
  publicUrl := fun p => "https://cdn/" ++ p
  ts := "TS"
  tsIso := "TI"

/-- C2, counterexample.  The collision-retry upload of
`storage_service.py` lines 144–162 marks the record synced and returns
success without re-running the existence probe: here the retry at
`123/a_TS.jpg` reports success, the object is not present in the
bucket, yet the result is a success and the record is marked
uploaded. -/
theorem c2_counterexample : ¬ C2Claim c2Env [c2fd] 1 := by
  unfold C2Claim
  decide

/-- The freshly put object is found by the probe when the path has a
parent directory. -/
theorem probeFinds_cons_self (objs : List String) (p : String) (h : pathDir p ≠ "") :
    probeFinds (p :: objs) p = true := by
  have h' : (pathDir p == "") = false := beq_eq_false_iff_ne.mpr h
  unfold probeFinds objNames
  simp [h', List.filter_cons]

/-- C2 (amended): for the *initial* upload attempt the claim holds — the
record is marked synced only if the post-upload existence probe
confirms presence, and a put that reports success without the object
becoming listable yields the failure "Upload verification failed" with
the record untouched.  (The collision-retry attempt of
`StorageService.upload_file` is exempt: it marks the record synced
without re-probing, per `c2_counterexample`.) -/
theorem c2_verify_amended (env : StoreEnv) (db : List FileRecord) (fid : Nat)
    (fd : FileRecord)
    (hfind : db.find? (fun r => r.id == fid) = some fd)
    (hl1 : strFalsy (effLocal fd) = false)
    (hl2 : env.fsExists ((effLocal fd).getD "") = true)
    (hnex : probeFinds env.objects (destPath fd) = false) :
    (env.putOutcome (destPath fd) = .okInvisible →
      uploadFile env db fid =
        { result := { success := false, error := some "Upload verification failed" },
          db := db, objects := env.objects, puts := [destPath fd] })
    ∧ (pathDir (destPath fd) ≠ "" → env.putOutcome (destPath fd) = .okVisible →
      uploadFile env db fid =
        { result := { success := true, storage_path := some (destPath fd),
                      url := some (env.publicUrl (destPath fd)) },
          db := dbUpdate db fid fun r =>
            { r with uploaded := true, storage_path := some (destPath fd),
                     storage_url := some (env.publicUrl (destPath fd)),
                     updated_at := env.tsIso },
          objects := destPath fd :: env.objects, puts := [destPath fd] }) := by
  constructor
  · intro hput
    unfold uploadFile
    rw [hfind]
    simp [hl1, hl2, hnex, hput, uploadVerify]
  · intro hdir hput
    unfold uploadFile
    rw [hfind]
    simp [hl1, hl2, hnex, hput, uploadVerify, probeFinds_cons_self _ _ hdir]

/-- Environment for the `c2_verify_amended` witness: every upload
reports success but never becomes listable. -/
def c2wEnv : StoreEnv :=
  { c2Env with putOutcome := fun _ => .okInvisible }

/-- Witness for `c2_verify_amended` at a concrete input. -/
theorem c2_verify_amended_witness :
    uploadFile c2wEnv [c2fd] 1 =
      { result := { success := false, error := some "Upload verification failed" },
        db := [c2fd], objects := [], puts := ["123/a.jpg"] } := by
  exact (c2_verify_amended c2wEnv [c2fd] 1 c2fd (by decide) (by decide) (by decide)
    (by decide)).1 rfl

/-! ### Claim C7 -/

/-- The property of claim C7 as stated (its concrete scenario): when
both the original upload and the single alternate-path retry fail with
the store's duplicate/collision error, the record nevertheless ends
synced at the timestamped alternate path with retry counter 2. -/
def C7Claim (env : StoreEnv) (db : List FileRecord) (fid : Nat) : Prop :=
  ∀ fd, db.find? (fun r => r.id == fid) = some fd →
    strFalsy (effLocal fd) = false →
    env.fsExists ((effLocal fd).getD "") = true →
    probeFinds env.objects (destPath fd) = false →
    env.putOutcome (destPath fd) = .dupErr →
    env.putOutcome (altPath env fd) = .dupErr →
      ∃ r ∈ (uploadFile env db fid).db,
        r.id = fid ∧ r.uploaded = true ∧
        r.storage_path = some (altPath env fd) ∧ r.upload_attempts = 2

/-- Unsynced record used for the C7 counterexample: destination
`123/a.jpg`, exactly the path of the claim's scenario. -/
def c7fd : FileRecord :=
  { id := 1, user_id := "u", phone_number := "123", filename := some "a.jpg",
    local_path := some "/l/a.jpg" }

/-- Environment for the C7 counterexample: every upload raises the
duplicate/collision error. -/
def c7Env : StoreEnv where
  fsExists := fun p => p == "/l/a.jpg"
  objects := []
  putOutcome := fun _ => .dupErr
  publicUrl := fun p => "https://cdn/" ++ p
  ts := "TS"
  tsIso := "TI"

/-- C7, counterexample.  With collisions on both `123/a.jpg` and
`123/a_TS.jpg`, `upload_file` returns the failure
"Alternative upload failed: Duplicate", leaves the record unsynced and
never touches the retry counter — the record does not end synced at
`123/a_TS.jpg` with counter 2 as the claim asserts. -/
theorem c7_counterexample : ¬ C7Claim c7Env [c7fd] 1 := by
  unfold C7Claim
  decide

/-- C7 (amended): on a collision at the derived destination the
coordinator performs exactly one retry, at the alternate path obtained
by inserting `_<timestamp>` between the base name and the extension; if
the retry call succeeds the record is marked synced at the alternate
path, while a second collision yields the failure result
"Alternative upload failed: …" with the record left untouched; the
retry counter is never incremented on the collision path. -/
theorem c7_collision_retry_amended (env : StoreEnv) (db : List FileRecord)
    (fid : Nat) (fd : FileRecord)
    (hfind : db.find? (fun r => r.id == fid) = some fd)
    (hl1 : strFalsy (effLocal fd) = false)
    (hl2 : env.fsExists ((effLocal fd).getD "") = true)
    (hnex : probeFinds env.objects (destPath fd) = false)
    (hdup : env.putOutcome (destPath fd) = .dupErr) :
    (uploadFile env db fid).puts = [destPath fd, altPath env fd]
    ∧ altPath env fd
        = cleanPhone fd ++ "/"
          ++ ((splitExt (destName fd)).1 ++ "_" ++ env.ts ++ (splitExt (destName fd)).2)
    ∧ (env.putOutcome (altPath env fd) = .okVisible →
        uploadFile env db fid =
          { result := { success := true, storage_path := some (altPath env fd),
                        url := some (env.publicUrl (altPath env fd)) },
            db := dbUpdate db fid fun r =>
              { r with uploaded := true, storage_path := some (altPath env fd),
                       storage_url := some (env.publicUrl (altPath env fd)),
                       updated_at := env.tsIso },
            objects := altPath env fd :: env.objects,
            puts := [destPath fd, altPath env fd] })
    ∧ (env.putOutcome (altPath env fd) = .dupErr →
        uploadFile env db fid =
          { result := { success := false,
                        error := some ("Alternative upload failed: " ++ "Duplicate") },
            db := db, objects := env.objects,
            puts := [destPath fd, altPath env fd] })
    ∧ (uploadFile env db fid).db.map (fun r => r.upload_attempts)
        = db.map (fun r => r.upload_attempts) := by
  have hred : uploadFile env db fid =
      (match env.putOutcome (altPath env fd) with
        | .okVisible =>
          { result := { success := true, storage_path := some (altPath env fd),
                        url := some (env.publicUrl (altPath env fd)) },
            db := dbUpdate db fid fun r =>
              { r with uploaded := true, storage_path := some (altPath env fd),
                       storage_url := some (env.publicUrl (altPath env fd)),
                       updated_at := env.tsIso },
            objects := altPath env fd :: env.objects,
            puts := [destPath fd, altPath env fd] }
        | .okInvisible =>
          { result := { success := true, storage_path := some (altPath env fd),
                        url := some (env.publicUrl (altPath env fd)) },
            db := dbUpdate db fid fun r =>
              { r with uploaded := true, storage_path := some (altPath env fd),
                       storage_url := some (env.publicUrl (altPath env fd)),
                       updated_at := env.tsIso },
            objects := env.objects,
            puts := [destPath fd, altPath env fd] }
        | .dupErr =>
          { result := { success := false,
                        error := some ("Alternative upload failed: " ++ "Duplicate") },
            db := db, objects := env.objects,
            puts := [destPath fd, altPath env fd] }
        | .errOther m =>
          { result := { success := false,
                        error := some ("Alternative upload failed: " ++ m) },
            db := db, objects := env.objects,
            puts := [destPath fd, altPath env fd] }) := by
    unfold uploadFile
    rw [hfind]
    simp [hl1, hl2, hnex, hdup]
  refine ⟨?_, rfl, ?_, ?_, ?_⟩
  · rw [hred]
    cases env.putOutcome (altPath env fd) <;> rfl
  · intro h
    rw [hred, h]
  · intro h
    rw [hred, h]
  · rw [hred]
    cases env.putOutcome (altPath env fd) <;>
      simp [dbUpdate, apply_ite (f := fun r : FileRecord => r.upload_attempts)]

/-- Witness for `c7_collision_retry_amended` at a concrete input. -/
theorem c7_collision_retry_amended_witness :
    (uploadFile c7Env [c7fd] 1).puts = ["123/a.jpg", "123/a_TS.jpg"]
    ∧ uploadFile c7Env [c7fd] 1 =
        { result := { success := false,
                      error := some ("Alternative upload failed: " ++ "Duplicate") },
          db := [c7fd], objects := [], puts := ["123/a.jpg", "123/a_TS.jpg"] } := by
  have h := c7_collision_retry_amended c7Env [c7fd] 1 c7fd (by decide) (by decide)
    (by decide) (by decide) (by decide)
  exact ⟨h.1, h.2.2.2.1 (by decide)⟩

/-! ## Phone attribution `PhoneExtractor.extract_phone_number`
(`app/services/phone_extraction.py`, lines 12–107).

Each Python regex is embedded as a scanner with `re.search` semantics:
positions are tried left to right, and at each position the pattern's
greedy/lazy structure is resolved as the engine would.  `\d` is
modelled as the ASCII digits. -/

/-- Maximal leading digit run (`\d+` / `\d{10,}` greedy). -/
def digitsPre (l : List Char) : List Char := l.takeWhile Char.isDigit

/-- `re.search` for `(\d+)` followed by a literal that starts with a
non-digit (the folder patterns `(\d+)@s\.whatsapp\.net` and
`(\d+)@status`): the leftmost position where the maximal digit run is
non-empty and directly followed by the literal. -/
def scanDigitsLit (lit : List Char) : List Char → Option (List Char)
  | [] => none
  | c :: rest =>
    let d := digitsPre (c :: rest)
    if d ≠ [] ∧ lit.isPrefixOf ((c :: rest).drop d.length) then some d
    else scanDigitsLit lit rest

/-- `re.search` for a literal followed by `(\d+)`
(pattern `from \+(\d+)`). -/
def scanLitDigits (lit : List Char) : List Char → Option (List Char)
  | [] => none
  | c :: rest =>
    let d := digitsPre ((c :: rest).drop lit.length)
    if lit.isPrefixOf (c :: rest) ∧ d ≠ [] then some d
    else scanLitDigits lit rest

/-- `re.search` for a literal, `(\d+)`, then a closing character
(pattern `from \((\d+)\)`). -/
def scanLitDigitsClose (lit : List Char) (close : Char) :
    List Char → Option (List Char)
  | [] => none
  | c :: rest =>
    let d := digitsPre ((c :: rest).drop lit.length)
    if lit.isPrefixOf (c :: rest) ∧ d ≠ [] ∧
        ((c :: rest).drop (lit.length + d.length)).head? = some close then
      some d
    else scanLitDigitsClose lit close rest

/-- `re.search` for a literal followed by `(\d{10,})`
(pattern `from (\d{10,})`). -/
def scanLitDigits10 (lit : List Char) : List Char → Option (List Char)
  | [] => none
  | c :: rest =>
    let d := digitsPre ((c :: rest).drop lit.length)
    if lit.isPrefixOf (c :: rest) ∧ 10 ≤ d.length then some d
    else scanLitDigits10 lit rest

/-- `re.search(r'(\d{10,})\.', s)`: a maximal digit run of length ≥ 10
immediately followed by a literal dot (backtracking cannot shorten the
run, since the shortened run would be followed by a digit). -/
def scanDigits10Dot : List Char → Option (List Char)
  | [] => none
  | c :: rest =>
    let d := digitsPre (c :: rest)
    if 10 ≤ d.length ∧ ((c :: rest).drop d.length).head? = some '.' then some d
    else scanDigits10Dot rest

/-- Inner scan for `WhatsApp.*?(\d{10,})`: the lazy gap `.*?` cannot
cross a newline; find the first maximal digit run of length ≥ 10. -/
def scanRun10NoNl : List Char → Option (List Char)
  | [] => none
  | c :: rest =>
    let d := digitsPre (c :: rest)
    if 10 ≤ d.length then some d
    else if c = '\n' then none
    else scanRun10NoNl rest

/-- `re.search(r'WhatsApp.*?(\d{10,})', s)`. -/
def scanWaDigits : List Char → Option (List Char)
  | [] => none
  | c :: rest =>
    if ("WhatsApp".toList).isPrefixOf (c :: rest) then
      match scanRun10NoNl ((c :: rest).drop 8) with
      | some d => some d
      | none => scanWaDigits rest
    else scanWaDigits rest

/-- `PhoneExtractor._match_with_active_chats(filename, file_date,
active_chats)` (lines 75–107): iterate the chats in order keeping the
strictly closer entry (ties keep the earlier one, entries without a
`last_activity` are skipped); accept the final candidate only if it is
truthy and strictly within 12 hours (43200 s).  The unused
`date_match` of line 82 is not modelled. -/
def chatStep (fileDate : Int) (acc : Option (String × Nat))
    (pc : String × Option Int) : Option (String × Nat) :=
  match pc.2 with
  | none => acc
  | some t =>
    let diff := (t - fileDate).natAbs
    match acc with
    | none => some (pc.1, diff)
    | some q => if diff < q.2 then some (pc.1, diff) else acc

/-- The selection loop of `_match_with_active_chats` followed by the
window test of lines 99–107. -/
def matchWithActiveChats (fileDate : Int) (chats : List (String × Option Int)) :
    Option String :=
  if chats.isEmpty then none
  else
    match chats.foldl (chatStep fileDate) none with
    | some q => if q.1 ≠ "" ∧ q.2 < 43200 then some q.1 else none
    | none => none

/-- `PhoneExtractor.extract_phone_number(filename_or_path, file_date,
active_chats)` (lines 12–73): two folder patterns, five filename
patterns in order, time proximity, then the sentinel. -/
def extractPhoneNumber (s : String) (fileDate : Int)
    (chats : List (String × Option Int)) : String :=
  let cs := s.toList
  match scanDigitsLit ("@s.whatsapp.net".toList) cs with
  | some d => String.mk d
  | none =>
  match scanDigitsLit ("@status".toList) cs with
  | some d => String.mk d
  | none =>
  match scanLitDigits ("from +".toList) cs with
  | some d => String.mk d
  | none =>
  match scanLitDigitsClose ("from (".toList) ')' cs with
  | some d => String.mk d
  | none =>
  match scanLitDigits10 ("from ".toList) cs with
  | some d => String.mk d
  | none =>
  match scanDigits10Dot cs with
  | some d => String.mk d
  | none =>
  match scanWaDigits cs with
  | some d => String.mk d
  | none =>
  match matchWithActiveChats fileDate chats with
  | some p => if p ≠ "" then p else "unknown"
  | none => "unknown"

/-! ### Claim C3 -/

/-- The closest-chat fold computes a minimum: whenever it returns
`(p, d)`, `d` is a lower bound for the time differences of all listed
entries, the candidate comes from the accumulator or from the list, and
`d` never exceeds the accumulator's value. -/
theorem chatFold_spec (t : Int) (l : List (String × Option Int))
    (acc : Option (String × Nat)) (p : String) (d : Nat)
    (h : l.foldl (chatStep t) acc = some (p, d)) :
    (∀ q ts, (q, some ts) ∈ l → d ≤ (ts - t).natAbs)
    ∧ (acc = some (p, d) ∨ ∃ ts, (p, some ts) ∈ l ∧ d = (ts - t).natAbs)
    ∧ (∀ q, acc = some q → d ≤ q.2) := by
  induction l generalizing acc with
  | nil =>
    simp only [List.foldl_nil] at h
    refine ⟨by simp, Or.inl h, ?_⟩
    intro q hq
    rw [h] at hq
    cases hq
    exact le_refl _
  | cons hd tl ih =>
    simp only [List.foldl_cons] at h
    obtain ⟨ih1, ih2, ih3⟩ := ih (chatStep t acc hd) h
    have hstep : ∀ q, acc = some q → d ≤ q.2 := by
      intro q hq
      rcases hd with ⟨q0, _ | ts0⟩
      · exact ih3 q (by rw [← hq]; rfl)
      · by_cases hlt : (ts0 - t).natAbs < q.2
        · have := ih3 (q0, (ts0 - t).natAbs) (by
            rw [hq]; simp [chatStep, hlt])
          omega
        · exact ih3 q (by rw [hq]; simp [chatStep, hlt])
    refine ⟨?_, ?_, hstep⟩
    · intro q ts hmem
      rcases List.mem_cons.mp hmem with heq | hmem'
      · rcases heq
        rcases acc with _ | ⟨a, da⟩
        · exact le_of_eq_of_le rfl (by
            have := ih3 (q, (ts - t).natAbs) (by simp [chatStep])
            omega)
        · by_cases hlt : (ts - t).natAbs < da
          · have := ih3 (q, (ts - t).natAbs) (by simp [chatStep, hlt])
            omega
          · have := ih3 (a, da) (by simp [chatStep, hlt])
            omega
      · exact ih1 q ts hmem'
    · rcases ih2 with hacc | ⟨ts, hmem, hdts⟩
      · rcases hd with ⟨q0, _ | ts0⟩
        · left
          simpa [chatStep] using hacc
        · rcases acc with _ | ⟨a, da⟩
          · right
            simp only [chatStep] at hacc
            cases hacc
            exact ⟨ts0, List.mem_cons_self _ _, rfl⟩
          · by_cases hlt : (ts0 - t).natAbs < da
            · right
              simp only [chatStep, hlt, if_pos] at hacc
              cases hacc
              exact ⟨ts0, List.mem_cons_self _ _, rfl⟩
            · left
              simpa [chatStep, hlt] using hacc
      · exact Or.inr ⟨ts, List.mem_cons_of_mem _ hmem, hdts⟩

/-- Once the closest-chat fold holds a candidate it never drops it. -/
theorem chatFold_preserve (t : Int) (l : List (String × Option Int))
    (pr : String × Nat) :
    ∃ pr2, l.foldl (chatStep t) (some pr) = some pr2 := by
  induction l generalizing pr with
  | nil => exact ⟨pr, rfl⟩
  | cons hd tl ih =>
    rcases hd with ⟨q0, _ | ts0⟩
    · exact ih pr
    · rw [List.foldl_cons]
      by_cases hlt : (ts0 - t).natAbs < pr.2
      · rw [show chatStep t (some pr) (q0, some ts0)
            = some (q0, (ts0 - t).natAbs) from by simp [chatStep, hlt]]
        exact ih _
      · rw [show chatStep t (some pr) (q0, some ts0) = some pr from by
            simp [chatStep, hlt]]
        exact ih _

/-- If any chat carries a timestamp, the closest-chat fold returns a
candidate. -/
theorem chatFold_some (t : Int) (l : List (String × Option Int))
    (hex : ∃ q ts, (q, some ts) ∈ l) :
    ∃ pr, l.foldl (chatStep t) none = some pr := by
  induction l with
  | nil => simp at hex
  | cons hd tl ih =>
    rcases hd with ⟨q0, _ | ts0⟩
    · rw [List.foldl_cons, show chatStep t none (q0, none) = none from rfl]
      apply ih
      rcases hex with ⟨q, ts, hmem⟩
      rcases List.mem_cons.mp hmem with heq | h'
      · simp at heq
      · exact ⟨q, ts, h'⟩
    · rw [List.foldl_cons, show chatStep t none (q0, some ts0)
          = some (q0, (ts0 - t).natAbs) from rfl]
      exact chatFold_preserve t tl _

/-- Soundness of the time-proximity match: a returned identity is a
non-empty chat key whose time difference to the file date is minimal
among all timestamped chats and strictly below the 12-hour window. -/
theorem matchChats_sound (t : Int) (chats : List (String × Option Int)) (p : String)
    (h : matchWithActiveChats t chats = some p) :
    p ≠ "" ∧ ∃ d, d < 43200 ∧ (∃ ts, (p, some ts) ∈ chats ∧ d = (ts - t).natAbs)
      ∧ ∀ q ts, (q, some ts) ∈ chats → d ≤ (ts - t).natAbs := by
  unfold matchWithActiveChats at h
  by_cases hc : chats.isEmpty
  · rw [if_pos hc] at h; cases h
  · rw [if_neg hc] at h
    rcases hb : chats.foldl (chatStep t) none with _ | ⟨p0, d0⟩ <;> rw [hb] at h
    · cases h
    · dsimp only at h
      by_cases hcond : p0 ≠ "" ∧ d0 < 43200
      · rw [if_pos hcond] at h
        injection h with h'
        subst h'
        obtain ⟨m1, m2, -⟩ := chatFold_spec t chats none p0 d0 hb
        rcases m2 with habs | ⟨ts, hmem, hd⟩
        · cases habs
        · exact ⟨hcond.1, d0, hcond.2, ⟨ts, hmem, hd⟩, m1⟩
      · rw [if_neg hcond] at h; cases h

/-- Completeness of the time-proximity match: when the chat keys are
non-empty and some timestamped chat lies strictly within the 12-hour
window, an identity is returned. -/
theorem matchChats_complete (t : Int) (chats : List (String × Option Int))
    (hids : ∀ q ∈ chats, q.1 ≠ "")
    (q : String) (ts : Int) (hmem : (q, some ts) ∈ chats)
    (hwin : (ts - t).natAbs < 43200) :
    ∃ p, matchWithActiveChats t chats = some p := by
  have hne : ¬ chats.isEmpty = true := by
    cases chats
    · cases hmem
    · simp
  obtain ⟨⟨p0, d0⟩, hb⟩ := chatFold_some t chats ⟨q, ts, hmem⟩
  obtain ⟨m1, m2, -⟩ := chatFold_spec t chats none p0 d0 hb
  have hd0 : d0 < 43200 := lt_of_le_of_lt (m1 q ts hmem) hwin
  have hp0 : p0 ≠ "" := by
    rcases m2 with habs | ⟨ts0, hmem0, -⟩
    · cases habs
    · exact hids (p0, some ts0) hmem0
  refine ⟨p0, ?_⟩
  unfold matchWithActiveChats
  rw [if_neg hne, hb]
  simp [hp0, hd0]

/-- Modelled from the words of claim C3: "a run of ≥ 10 digits" as a
filename pattern — the first maximal digit run of length at least ten,
with no constraint on the surrounding characters (the code instead
requires "from " before the run or a dot after it). -/
def scanRun10Bare : List Char → Option (List Char)
  | [] => none
  | c :: rest =>
    let d := digitsPre (c :: rest)
    if 10 ≤ d.length then some d
    else scanRun10Bare rest

/-- The attribution cascade exactly as claim C3 states it: folder
patterns first, then the filename patterns "from +<digits>",
"from (<digits>)", a bare run of ≥ 10 digits, a platform-name marker
followed by digits, then the minimal-time-difference proximity match
within 12 hours, then the sentinel. -/
def c3SpecResult (s : String) (fileDate : Int)
    (chats : List (String × Option Int)) : String :=
  match scanDigitsLit ("@s.whatsapp.net".toList) s.toList with
  | some d => String.mk d
  | none =>
  match scanDigitsLit ("@status".toList) s.toList with
  | some d => String.mk d
  | none =>
  match scanLitDigits ("from +".toList) s.toList with
  | some d => String.mk d
  | none =>
  match scanLitDigitsClose ("from (".toList) ')' s.toList with
  | some d => String.mk d
  | none =>
  match scanRun10Bare s.toList with
  | some d => String.mk d
  | none =>
  match scanWaDigits s.toList with
  | some d => String.mk d
  | none =>
  match matchWithActiveChats fileDate chats with
  | some p => p
  | none => "unknown"

/-- The property of claim C3 as stated, at one input: the attributor
resolves exactly per the claim's cascade. -/
def C3Claim (s : String) (t : Int) (chats : List (String × Option Int)) : Prop :=
  extractPhoneNumber s t chats = c3SpecResult s t chats

/-- C3, counterexample.  On `files/12345678901` — a bare run of 11
digits with no dot after it, no "from " before it and no platform
marker — the claim's cascade returns `12345678901` via its "run of ≥ 10
digits" pattern, but the code's pattern `(\d{10,})\.` requires a
trailing dot, so `extract_phone_number` falls through to "unknown". -/
theorem c3_counterexample : ¬ C3Claim "files/12345678901" 0 [] := by
  unfold C3Claim
  decide

/-- C3 (amended): attribution resolves with first match winning in this
order — (1) folder pattern `<digits>@s.whatsapp.net`, (2) folder
pattern `<digits>@status`, (3) `from +<digits>`, (4) `from (<digits>)`,
(5) `from ` followed by a run of ≥ 10 digits, (6) a run of ≥ 10 digits
followed by a dot, (7) the marker `WhatsApp` followed (lazily) by a run
of ≥ 10 digits; otherwise (8) the active chat with minimal absolute
time difference to the file date is returned when that difference is
strictly under 43200 s and its key is non-empty — and conversely a
non-empty-keyed chat strictly inside the window guarantees a proximity
attribution; otherwise (9) the sentinel "unknown". -/
theorem c3_resolution_amended (s : String) (t : Int)
    (chats : List (String × Option Int)) :
    (∀ d, scanDigitsLit ("@s.whatsapp.net".toList) s.toList = some d →
      extractPhoneNumber s t chats = String.mk d)
    ∧ (scanDigitsLit ("@s.whatsapp.net".toList) s.toList = none →
      ∀ d, scanDigitsLit ("@status".toList) s.toList = some d →
        extractPhoneNumber s t chats = String.mk d)
    ∧ (scanDigitsLit ("@s.whatsapp.net".toList) s.toList = none →
      scanDigitsLit ("@status".toList) s.toList = none →
      ∀ d, scanLitDigits ("from +".toList) s.toList = some d →
        extractPhoneNumber s t chats = String.mk d)
    ∧ (scanDigitsLit ("@s.whatsapp.net".toList) s.toList = none →
      scanDigitsLit ("@status".toList) s.toList = none →
      scanLitDigits ("from +".toList) s.toList = none →
      ∀ d, scanLitDigitsClose ("from (".toList) ')' s.toList = some d →
        extractPhoneNumber s t chats = String.mk d)
    ∧ (scanDigitsLit ("@s.whatsapp.net".toList) s.toList = none →
      scanDigitsLit ("@status".toList) s.toList = none →
      scanLitDigits ("from +".toList) s.toList = none →
      scanLitDigitsClose ("from (".toList) ')' s.toList = none →
      ∀ d, scanLitDigits10 ("from ".toList) s.toList = some d →
        extractPhoneNumber s t chats = String.mk d)
    ∧ (scanDigitsLit ("@s.whatsapp.net".toList) s.toList = none →
      scanDigitsLit ("@status".toList) s.toList = none →
      scanLitDigits ("from +".toList) s.toList = none →
      scanLitDigitsClose ("from (".toList) ')' s.toList = none →
      scanLitDigits10 ("from ".toList) s.toList = none →
      ∀ d, scanDigits10Dot s.toList = some d →
        extractPhoneNumber s t chats = String.mk d)
    ∧ (scanDigitsLit ("@s.whatsapp.net".toList) s.toList = none →
      scanDigitsLit ("@status".toList) s.toList = none →
      scanLitDigits ("from +".toList) s.toList = none →
      scanLitDigitsClose ("from (".toList) ')' s.toList = none →
      scanLitDigits10 ("from ".toList) s.toList = none →
      scanDigits10Dot s.toList = none →
      ∀ d, scanWaDigits s.toList = some d →
        extractPhoneNumber s t chats = String.mk d)
    ∧ (scanDigitsLit ("@s.whatsapp.net".toList) s.toList = none →
      scanDigitsLit ("@status".toList) s.toList = none →
      scanLitDigits ("from +".toList) s.toList = none →
      scanLitDigitsClose ("from (".toList) ')' s.toList = none →
      scanLitDigits10 ("from ".toList) s.toList = none →
      scanDigits10Dot s.toList = none →
      scanWaDigits s.toList = none →
      ∀ p, matchWithActiveChats t chats = some p →
        extractPhoneNumber s t chats = p ∧ p ≠ "" ∧
        ∃ d, d < 43200 ∧ (∃ ts, (p, some ts) ∈ chats ∧ d = (ts - t).natAbs) ∧
          ∀ q ts, (q, some ts) ∈ chats → d ≤ (ts - t).natAbs)
    ∧ (scanDigitsLit ("@s.whatsapp.net".toList) s.toList = none →
      scanDigitsLit ("@status".toList) s.toList = none →
      scanLitDigits ("from +".toList) s.toList = none →
      scanLitDigitsClose ("from (".toList) ')' s.toList = none →
      scanLitDigits10 ("from ".toList) s.toList = none →
      scanDigits10Dot s.toList = none →
      scanWaDigits s.toList = none →
      matchWithActiveChats t chats = none →
        extractPhoneNumber s t chats = "unknown")
    ∧ (scanDigitsLit ("@s.whatsapp.net".toList) s.toList = none →
      scanDigitsLit ("@status".toList) s.toList = none →
      scanLitDigits ("from +".toList) s.toList = none →
      scanLitDigitsClose ("from (".toList) ')' s.toList = none →
      scanLitDigits10 ("from ".toList) s.toList = none →
      scanDigits10Dot s.toList = none →
      scanWaDigits s.toList = none →
      (∀ q ∈ chats, q.1 ≠ "") →
      ∀ q ts, (q, some ts) ∈ chats → (ts - t).natAbs < 43200 →
        ∃ p, matchWithActiveChats t chats = some p ∧
          extractPhoneNumber s t chats = p) := by
  refine ⟨?_, ?_, ?_, ?_, ?_, ?_, ?_, ?_, ?_, ?_⟩
  · intro d h1
    unfold extractPhoneNumber
    simp only [h1]
  · intro h1 d h2
    unfold extractPhoneNumber
    simp only [h1, h2]
  · intro h1 h2 d h3
    unfold extractPhoneNumber
    simp only [h1, h2, h3]
  · intro h1 h2 h3 d h4
    unfold extractPhoneNumber
    simp only [h1, h2, h3, h4]
  · intro h1 h2 h3 h4 d h5
    unfold extractPhoneNumber
    simp only [h1, h2, h3, h4, h5]
  · intro h1 h2 h3 h4 h5 d h6
    unfold extractPhoneNumber
    simp only [h1, h2, h3, h4, h5, h6]
  · intro h1 h2 h3 h4 h5 h6 d h7
    unfold extractPhoneNumber
    simp only [h1, h2, h3, h4, h5, h6, h7]
  · intro h1 h2 h3 h4 h5 h6 h7 p hm
    obtain ⟨hp, hrest⟩ := matchChats_sound t chats p hm
    refine ⟨?_, hp, hrest⟩
    unfold extractPhoneNumber
    simp only [h1, h2, h3, h4, h5, h6, h7, hm, hp, ne_eq, not_false_eq_true,
      if_true]
  · intro h1 h2 h3 h4 h5 h6 h7 hm
    unfold extractPhoneNumber
    simp only [h1, h2, h3, h4, h5, h6, h7, hm]
  · intro h1 h2 h3 h4 h5 h6 h7 hids q ts hmem hwin
    obtain ⟨p, hp⟩ := matchChats_complete t chats hids q ts hmem hwin
    obtain ⟨hpne, -⟩ := matchChats_sound t chats p hp
    refine ⟨p, hp, ?_⟩
    unfold extractPhoneNumber
    simp only [h1, h2, h3, h4, h5, h6, h7, hp, hpne, ne_eq, not_false_eq_true,
      if_true]

/-- Witness for `c3_resolution_amended` at a concrete input: the
`from +` pattern fires on the C9 scenario filename. -/
theorem c3_resolution_amended_witness :
    extractPhoneNumber "IMG-20230615-WA0003 from +15551234567.jpg" 0 []
      = "15551234567" := by
  exact (c3_resolution_amended "IMG-20230615-WA0003 from +15551234567.jpg" 0
    []).2.2.1 (by decide) (by decide)
    ("15551234567".toList) (by decide)

/-! ## File scanner `FileManager.scan_whatsapp_files` and
`FileManager.organize_file_by_phone`
(`app/services/file_management.py`, lines 66–335). -/

/-- `str.lower()` restricted to ASCII case folding. -/
def strLower (s : String) : String :=
  String.mk (s.toList.map Char.toLower)

/-- `file_lower.endswith(ext)`. -/
def strEndsWith (s suffix : String) : Bool :=
  suffix.toList.isSuffixOf s.toList

/-- The `file_type_mappings` dictionary, in insertion order
(lines 139–151). -/
def fileTypeMappings : List (String × List String) :=
  [("image", [".jpg", ".jpeg", ".png", ".gif", ".webp", ".bmp", ".tiff", ".heic"]),
   ("document", [".pdf", ".doc", ".docx", ".xls", ".xlsx", ".ppt", ".pptx", ".txt",
                 ".csv", ".rtf", ".odt", ".ods", ".odp", ".pages", ".numbers", ".key"]),
   ("audio", [".mp3", ".wav", ".ogg", ".m4a", ".aac", ".flac", ".opus", ".amr"]),
   ("video", [".mp4", ".mkv", ".avi", ".mov", ".wmv", ".flv", ".webm", ".m4v", ".3gp"]),
   ("archive", [".zip", ".rar", ".7z", ".tar", ".gz", ".bz2"])]

/-- `all_extensions` (line 154). -/
def allExtensions : List String :=
  (fileTypeMappings.map Prod.snd).flatten

/-- `whatsapp_patterns` (lines 157–160). -/
def whatsappPatterns : List String :=
  ["WhatsApp Image", "WhatsApp Video", "WhatsApp Audio", "WhatsApp Document",
   "WA", "IMG-", "VID-", "AUD-", "DOC-", "PTT-"]

/-- `any(file_lower.endswith(ext) for ext in all_extensions)` (line 218). -/
def isValidExtension (fileLower : String) : Bool :=
  allExtensions.any fun ext => strEndsWith fileLower ext

/-- `any(pattern.lower() in file_lower for pattern in whatsapp_patterns)`
(line 219). -/
def isWhatsappPattern (fileLower : String) : Bool :=
  whatsappPatterns.any fun pat => containsSub (strLower pat).toList fileLower.toList

/-- The media-type loop of lines 242–247: first mapping group with a
matching extension, else "other". -/
def mediaTypeOf (fileLower : String) : String :=
  match fileTypeMappings.find? (fun m => m.2.any fun ext => strEndsWith fileLower ext) with
  | some m => m.1
  | none => "other"

/-- One file met during `os.walk`: the directory that contains it, its
name, size and the two filesystem timestamps.  `readable = false`
models a per-file `PermissionError`/read failure inside the `try`
block. -/
structure ScanEntry where
  dirpath : String
  name : String
  size : Nat := 0
  ctime : Int := 0
  mtime : Int := 0
  readable : Bool := true
deriving DecidableEq, Repr

/-- One candidate root directory: its path, whether it exists and is
readable, and the files its walk yields, in walk order. -/
structure ScanRoot where
  path : String
  present : Bool := true
  readable : Bool := true
  walk : List ScanEntry := []
deriving DecidableEq, Repr

/-- External world of the scanner: the base data directory, the
candidate roots, the content digest of the file at a path, the MIME
guess, and the organize-step filesystem (destination existence and
whether the copy succeeds). -/
structure ScanEnv where
  dataDir : String
  roots : List ScanRoot
  hashOf : String → String
  guessMime : String → Option String
  destExists : String → Bool
  copyOk : String → Bool

/-- `FileManager.organize_file_by_phone(original_path, filename,
phone_number, media_type)` (lines 66–112).  Returns the organized path
(`none` on refusal or copy failure) together with the directory-layout
paths touched (`os.makedirs`/`shutil.copy2` happen only past the
unknown-phone guard). -/
def organizeFileByPhone (env : ScanEnv) (filename phone mediaType : String) :
    Option String × List String :=
  if phone = "" ∨ phone = "unknown" then (none, [])
  else
    let dest := env.dataDir ++ "/organized/" ++ phone ++ "/" ++ mediaType
      ++ "/" ++ filename
    if env.destExists dest then (some dest, [dest])
    else if env.copyOk dest then (some dest, [dest])
    else (none, [dest])

/-- The `file_info` dictionary of lines 275–286 (`created_at` is kept
as the numeric timestamp rather than its ISO rendering). -/
structure ScanFileInfo where
  filename : String
  local_path : String
  organized_path : Option String
  phone_number : String
  size : Nat
  mime_type : String
  media_type : String
  created_at : Int
  source_dir : String
  file_hash : String
deriving DecidableEq, Repr

/-- Per-identity statistics entry (lines 289–298); the `types`
sub-dictionary has no "archive" key, so archives count as "other". -/
structure PhoneStat where
  count : Nat := 0
  size : Nat := 0
  image : Nat := 0
  video : Nat := 0
  audio : Nat := 0
  document : Nat := 0
  other : Nat := 0
deriving DecidableEq, Repr

/-- The scanner's `stats` dictionary (lines 126–136). -/
structure ScanStats where
  images : Nat := 0
  documents : Nat := 0
  audio : Nat := 0
  video : Nat := 0
  other : Nat := 0
  total_size : Nat := 0
  error_count : Nat := 0
  duplicate_count : Nat := 0
  phone_numbers : List (String × PhoneStat) := []
deriving DecidableEq, Repr

/-- `stats[media_type if media_type in stats else 'other'] += 1`
(line 257).  The stats keys are the *plural* forms `images`/`documents`,
so only the media types "audio", "video" and "other" hit their own
bucket; "image", "document" and "archive" all land in "other". -/
def bumpMedia (st : ScanStats) (mediaType : String) : ScanStats :=
  if mediaType = "audio" then { st with audio := st.audio + 1 }
  else if mediaType = "video" then { st with video := st.video + 1 }
  else { st with other := st.other + 1 }

/-- Lines 296–298: bump one identity's counters. -/
def bumpPhoneTypes (ps : PhoneStat) (mediaType : String) (size : Nat) : PhoneStat :=
  let ps := { ps with count := ps.count + 1, size := ps.size + size }
  if mediaType = "image" then { ps with image := ps.image + 1 }
  else if mediaType = "video" then { ps with video := ps.video + 1 }
  else if mediaType = "audio" then { ps with audio := ps.audio + 1 }
  else if mediaType = "document" then { ps with document := ps.document + 1 }
  else { ps with other := ps.other + 1 }

/-- Lines 288–298: create-or-update the per-identity entry, dictionary
insertion order preserved. -/
def bumpPhone (l : List (String × PhoneStat)) (phone mediaType : String)
    (size : Nat) : List (String × PhoneStat) :=
  match l.find? (fun e => e.1 == phone) with
  | some _ => l.map fun e =>
      if e.1 == phone then (e.1, bumpPhoneTypes e.2 mediaType size) else e
  | none => l ++ [(phone, bumpPhoneTypes {} mediaType size)]

/-- State accumulated by the scan: the `downloaded_files` list, the
statistics, and the organize-layout paths written so far. -/
structure ScanState where
  files : List ScanFileInfo := []
  stats : ScanStats := {}
  copies : List String := []
deriving DecidableEq, Repr

/-- Body of the inner `for file in files` loop (lines 206–307). -/
def processScanEntry (env : ScanEnv) (chats : List (String × Option Int))
    (root : ScanRoot) (st : ScanState) (e : ScanEntry) : ScanState :=
  let filePath := e.dirpath ++ "/" ++ e.name
  let fileLower := strLower e.name
  -- line 214: skip hidden files
  if e.name.toList.head? = some '.' then st
  -- lines 217–222: extension or WhatsApp-pattern filter
  else if ¬ (isValidExtension fileLower = true ∨ isWhatsappPattern fileLower = true) then st
  -- lines 302–307: a per-file read failure only bumps the error counter
  else if e.readable = false then
    { st with stats := { st.stats with error_count := st.stats.error_count + 1 } }
  else
    -- lines 228–254: size, effective timestamp, mime, media type,
    -- attributed identity, content hash
    let fileDate := max e.ctime e.mtime
    let mime := (env.guessMime filePath).getD "application/octet-stream"
    let mediaType := mediaTypeOf fileLower
    let phone := extractPhoneNumber filePath fileDate chats
    let fhash := env.hashOf filePath
    -- lines 256–258: media and size stats (before the duplicate check)
    let stats1 := bumpMedia st.stats mediaType
    let stats2 := { stats1 with total_size := stats1.total_size + e.size }
    -- lines 260–270: in-pass duplicate check (same filename and size)
    if st.files.any (fun ex => ex.filename == e.name && ex.size == e.size) then
      { st with stats :=
          { stats2 with duplicate_count := stats2.duplicate_count + 1 } }
    else
      -- lines 272–300: organize, build the record, per-identity stats
      let org := organizeFileByPhone env e.name phone mediaType
      let info : ScanFileInfo :=
        { filename := e.name, local_path := filePath, organized_path := org.1,
          phone_number := phone, size := e.size, mime_type := mime,
          media_type := mediaType, created_at := fileDate,
          source_dir := root.path, file_hash := fhash }
      { files := st.files ++ [info],
        stats := { stats2 with
          phone_numbers := bumpPhone stats2.phone_numbers phone mediaType e.size },
        copies := st.copies ++ org.2 }

/-- Result of `scan_whatsapp_files`. -/
structure ScanResult where
  files : List ScanFileInfo
  stats : ScanStats
  copies : List String
  paths_scanned : Nat
deriving DecidableEq, Repr

/-- `FileManager.scan_whatsapp_files(active_chats)` (lines 114–335):
process every existing readable root's walk in order. -/
def scanWhatsappFiles (env : ScanEnv) (chats : List (String × Option Int)) :
    ScanResult :=
  let usable := env.roots.filter fun r => r.present && r.readable
  let st := usable.foldl
    (fun st root => root.walk.foldl (processScanEntry env chats root) st) {}
  { files := st.files, stats := st.stats, copies := st.copies,
    paths_scanned := usable.length }

/-! ### Claim C9 -/

/-- The file of the C9 scenario: 2048 bytes, placed in a scanned root. -/
def c9Entry : ScanEntry :=
  { dirpath := "/r", name := "IMG-20230615-WA0003 from +15551234567.jpg",
    size := 2048 }

/-- The scanned root of the C9 scenario. -/
def c9Root : ScanRoot := { path := "/r", walk := [c9Entry] }

/-- Environment of the C9 scenario. -/
def c9Env : ScanEnv where
  dataDir := "/data"
  roots := [c9Root]
  hashOf := fun _ => "H"
  guessMime := fun _ => some "image/jpeg"
  destExists := fun _ => false
  copyOk := fun _ => true

/-- C9: scanning a root holding `IMG-20230615-WA0003 from
+15551234567.jpg` of 2048 bytes yields exactly one record, with media
category "image", sender identity "15551234567" and size 2048. -/
theorem c9_scan_scenario :
    (scanWhatsappFiles c9Env []).files.map
        (fun f => (f.media_type, f.phone_number, f.size))
      = [("image", "15551234567", 2048)] := by
  decide

/-! ### Claim C10 -/

/-- C10: a scanned, accepted, non-duplicate file whose attributed
identity is the sentinel "unknown" (or empty) is still recorded and
counted, but the organize step refuses before touching the
identity-keyed layout: the record is appended with
`organized_path = none`, the layout-write log is unchanged, and the
size statistics still include the file. -/
theorem c10_unknown_not_organized (env : ScanEnv)
    (chats : List (String × Option Int)) (root : ScanRoot) (st : ScanState)
    (e : ScanEntry)
    (h1 : e.name.toList.head? ≠ some '.')
    (h2 : isValidExtension (strLower e.name) = true
          ∨ isWhatsappPattern (strLower e.name) = true)
    (h3 : e.readable = true)
    (hph : extractPhoneNumber (e.dirpath ++ "/" ++ e.name)
        (max e.ctime e.mtime) chats = "unknown"
        ∨ extractPhoneNumber (e.dirpath ++ "/" ++ e.name)
        (max e.ctime e.mtime) chats = "")
    (hdup : st.files.any (fun ex => ex.filename == e.name && ex.size == e.size)
        = false) :
    organizeFileByPhone env e.name
        (extractPhoneNumber (e.dirpath ++ "/" ++ e.name) (max e.ctime e.mtime)
          chats)
        (mediaTypeOf (strLower e.name)) = (none, [])
    ∧ (processScanEntry env chats root st e).files
        = st.files ++
          [{ filename := e.name, local_path := e.dirpath ++ "/" ++ e.name,
             organized_path := none,
             phone_number := extractPhoneNumber (e.dirpath ++ "/" ++ e.name)
               (max e.ctime e.mtime) chats,
             size := e.size,
             mime_type := (env.guessMime (e.dirpath ++ "/" ++ e.name)).getD
               "application/octet-stream",
             media_type := mediaTypeOf (strLower e.name),
             created_at := max e.ctime e.mtime,
             source_dir := root.path,
             file_hash := env.hashOf (e.dirpath ++ "/" ++ e.name) }]
    ∧ (processScanEntry env chats root st e).copies = st.copies
    ∧ (processScanEntry env chats root st e).stats.total_size
        = st.stats.total_size + e.size := by
  have horg : organizeFileByPhone env e.name
      (extractPhoneNumber (e.dirpath ++ "/" ++ e.name) (max e.ctime e.mtime)
        chats)
      (mediaTypeOf (strLower e.name)) = (none, []) := by
    unfold organizeFileByPhone
    rcases hph with h | h <;> rw [if_pos (by rw [h]; simp)]
  have hstep : processScanEntry env chats root st e =
      { files := st.files ++
          [{ filename := e.name, local_path := e.dirpath ++ "/" ++ e.name,
             organized_path := none,
             phone_number := extractPhoneNumber (e.dirpath ++ "/" ++ e.name)
               (max e.ctime e.mtime) chats,
             size := e.size,
             mime_type := (env.guessMime (e.dirpath ++ "/" ++ e.name)).getD
               "application/octet-stream",
             media_type := mediaTypeOf (strLower e.name),
             created_at := max e.ctime e.mtime,
             source_dir := root.path,
             file_hash := env.hashOf (e.dirpath ++ "/" ++ e.name) }],
        stats := { (bumpMedia st.stats (mediaTypeOf (strLower e.name))) with
          total_size := (bumpMedia st.stats
            (mediaTypeOf (strLower e.name))).total_size + e.size,
          phone_numbers := bumpPhone
            (bumpMedia st.stats (mediaTypeOf (strLower e.name))).phone_numbers
            (extractPhoneNumber (e.dirpath ++ "/" ++ e.name)
              (max e.ctime e.mtime) chats)
            (mediaTypeOf (strLower e.name)) e.size },
        copies := st.copies ++ [] } := by
    unfold processScanEntry
    rw [if_neg h1, if_neg (not_not_intro h2), if_neg (by simp [h3]),
      if_neg (by simp [hdup]), horg]
  refine ⟨horg, ?_, ?_, ?_⟩
  · rw [hstep]
  · rw [hstep]
    simp
  · have hbm : ∀ (s : ScanStats) (m : String),
        (bumpMedia s m).total_size = s.total_size := by
      intro s m
      unfold bumpMedia
      by_cases ha : m = "audio"
      · simp [ha]
      · by_cases hv : m = "video" <;> simp [ha, hv]
    rw [hstep]
    simp [hbm]

/-- An accepted file that no pattern or chat attributes. -/
def c10Entry : ScanEntry := { dirpath := "/r", name := "WA-note.txt" }

/-- Witness for `c10_unknown_not_organized` at a concrete input. -/
theorem c10_unknown_not_organized_witness :
    (processScanEntry c9Env [] c9Root {} c10Entry).files
      = [{ filename := "WA-note.txt", local_path := "/r/WA-note.txt",
           organized_path := none, phone_number := "unknown", size := 0,
           mime_type := "image/jpeg", media_type := "document",
           created_at := 0, source_dir := "/r", file_hash := "H" }]
    ∧ (processScanEntry c9Env [] c9Root {} c10Entry).copies = [] := by
  have h := c10_unknown_not_organized c9Env [] c9Root {} c10Entry
    (by decide) (Or.inl (by decide)) (by decide) (Or.inl (by decide))
    (by decide)
  exact ⟨h.2.1.trans (by decide), h.2.2.1.trans (by decide)⟩

/-! ## Scan-and-record `WhatsAppService.download_files`
(`app/services/whatsapp_service.py`, lines 345–558). -/

/-- `\d{4}-\d{2}-\d{2}` anchored at the current position. -/
def dashDateAt (l : List Char) : Bool :=
  match l with
  | a :: b :: c :: d :: x :: e :: f :: y :: g :: h :: _ =>
    x = '-' && y = '-' && [a, b, c, d, e, f, g, h].all Char.isDigit
  | _ => false

/-- Truthiness of `re.search(r'(\d{8})|\d{6}|\d{4}-\d{2}-\d{2}', s)`
(line 582): some position starts at least six digits (which subsumes
the eight-digit branch) or a `dddd-dd-dd` shape. -/
def hasDateMatch : List Char → Bool
  | [] => false
  | c :: rest =>
    (6 ≤ (digitsPre (c :: rest)).length) || dashDateAt (c :: rest)
      || hasDateMatch rest

/-- `WhatsAppService._extract_phone_number(filename, file_date,
active_chats)` (lines 560–605): the five filename patterns, then —
only when chats exist and the name carries a date-like token — the
closest chat strictly within a 1-hour window. -/
def wsExtractPhoneNumber (filename : String) (fileDate : Int)
    (chats : List (String × Option Int)) : String :=
  let cs := filename.toList
  match scanLitDigits ("from +".toList) cs with
  | some d => String.mk d
  | none =>
  match scanLitDigitsClose ("from (".toList) ')' cs with
  | some d => String.mk d
  | none =>
  match scanLitDigits10 ("from ".toList) cs with
  | some d => String.mk d
  | none =>
  match scanDigits10Dot cs with
  | some d => String.mk d
  | none =>
  match scanWaDigits cs with
  | some d => String.mk d
  | none =>
  if chats.isEmpty = false ∧ hasDateMatch cs = true then
    match chats.foldl (chatStep fileDate) none with
    | some q => if q.1 ≠ "" ∧ q.2 < 3600 then q.1 else "unknown"
    | none => "unknown"
  else "unknown"

/-- Environment of `download_files`: the candidate roots (only
existence is checked here, lines 428–431), the MIME guess, and the
active chats read from the live session. -/
structure DlEnv where
  roots : List ScanRoot
  guessMime : String → Option String
  chats : List (String × Option Int)

/-- `_get_existing_files` (lines 517–528) reduced to what the caller
keeps of it: `{file.get('storage_path', ''): True for file in …}` for
the given owner. -/
def existingPaths (db : List FileRecord) (uid : String) : List String :=
  (db.filter fun r => r.user_id == uid).map fun r => (r.storage_path).getD ""

/-- The accept test of lines 440–453: not already recorded, then the
extension/pattern filter (this scan has no hidden-file check). -/
def dlAccept (ex : List String) (e : ScanEntry) : Bool :=
  !(ex.contains (e.dirpath ++ "/" ++ e.name)) &&
    (isValidExtension (strLower e.name) || isWhatsappPattern (strLower e.name))

/-- The `file_info` dictionary of lines 484–492 (timestamps numeric;
this scan uses the creation time alone, line 461). -/
structure DlInfo where
  filename : String
  local_path : String
  phone_number : String
  size : Nat
  mime_type : String
  media_type : String
  created_at : Int
deriving DecidableEq, Repr

/-- Build the `file_info` record for an accepted file
(lines 457–492). -/
def dlInfoOf (env : DlEnv) (e : ScanEntry) : DlInfo :=
  let filePath := e.dirpath ++ "/" ++ e.name
  { filename := e.name, local_path := filePath,
    phone_number := wsExtractPhoneNumber e.name e.ctime env.chats,
    size := e.size,
    mime_type := (env.guessMime filePath).getD "application/octet-stream",
    media_type := mediaTypeOf (strLower e.name), created_at := e.ctime }

/-- The row built by `_add_files_to_database` (lines 530–558):
`storage_path` is the local path and `uploaded` starts false. -/
def toDlRecord (uid : String) (i : DlInfo) : FileRecord :=
  { id := 0, user_id := uid, filename := some i.filename,
    phone_number := i.phone_number, size := i.size,
    mime_type := some i.mime_type, storage_path := some i.local_path,
    media_type := some i.media_type, uploaded := false }

/-- The concatenated walks of the existing roots, in order. -/
def dlWalk (env : DlEnv) : List ScanEntry :=
  ((env.roots.filter fun r => r.present).map fun r => r.walk).flatten

/-- The collection loop of lines 427–497 against a snapshot `ex` of the
already-recorded paths (the snapshot is taken once, before the loop). -/
def dlScan (env : DlEnv) (ex : List String) : List DlInfo :=
  (dlWalk env).foldl
    (fun acc e => if dlAccept ex e then acc ++ [dlInfoOf env e] else acc) []

/-- Result of `download_files`: the new file infos and the store after
the inserts. -/
structure DlResult where
  files : List DlInfo
  db : List FileRecord
deriving DecidableEq, Repr

/-- `WhatsAppService.download_files()` (lines 345–558): snapshot the
recorded paths, collect the accepted files, insert them (batching by
50 only chunks the inserts and is dropped; insert failures are not
modelled). -/
def downloadFiles (env : DlEnv) (uid : String) (db : List FileRecord) : DlResult :=
  let infos := dlScan env (existingPaths db uid)
  { files := infos, db := db ++ infos.map (toDlRecord uid) }

/-! ### Claim C5 -/

/-- The collection fold is a filter-and-map. -/
theorem dlScan_eq (env : DlEnv) (ex : List String) (l : List ScanEntry)
    (acc : List DlInfo) :
    l.foldl (fun acc e => if dlAccept ex e then acc ++ [dlInfoOf env e] else acc)
        acc
      = acc ++ (l.filter (dlAccept ex)).map (dlInfoOf env) := by
  induction l generalizing acc with
  | nil => simp
  | cons e tl ih =>
    rw [List.foldl_cons]
    by_cases h : dlAccept ex e = true
    · rw [if_pos h, ih, List.filter_cons_of_pos h]
      simp
    · rw [if_neg (by simp [h]), ih,
        List.filter_cons_of_neg (by simp [h])]

/-- `existingPaths` distributes over store append. -/
theorem existingPaths_append (db1 db2 : List FileRecord) (uid : String) :
    existingPaths (db1 ++ db2) uid
      = existingPaths db1 uid ++ existingPaths db2 uid := by
  unfold existingPaths
  rw [List.filter_append, List.map_append]

/-- C5: running the scan twice against an unchanged filesystem yields
zero new records on the second run, and the metadata store is left
unchanged: every file accepted in the first run was inserted with its
path as `storage_path` under the scanning owner, so the second run's
reconciliation against the persisted store recognizes it, and files
skipped or filtered in the first run are skipped or filtered again. -/
theorem c5_scan_idempotent (env : DlEnv) (uid : String) (db : List FileRecord) :
    (downloadFiles env uid (downloadFiles env uid db).db).files = []
    ∧ (downloadFiles env uid (downloadFiles env uid db).db).db
        = (downloadFiles env uid db).db := by
  have hscan : ∀ ex, dlScan env ex
      = ((dlWalk env).filter (dlAccept ex)).map (dlInfoOf env) := by
    intro ex
    unfold dlScan
    rw [dlScan_eq]
    rfl
  have hall : ∀ e ∈ dlWalk env,
      dlAccept (existingPaths (downloadFiles env uid db).db uid) e = false := by
    intro e he
    by_cases h1 : dlAccept (existingPaths db uid) e = true
    · -- the file was accepted, hence inserted, in the first run
      have hmem : dlInfoOf env e ∈ dlScan env (existingPaths db uid) := by
        rw [hscan]
        exact List.mem_map_of_mem _ (List.mem_filter.mpr ⟨he, h1⟩)
      have hrec : toDlRecord uid (dlInfoOf env e)
          ∈ (downloadFiles env uid db).db :=
        List.mem_append_right _ (List.mem_map_of_mem _ hmem)
      have hpath : (e.dirpath ++ "/" ++ e.name)
          ∈ existingPaths (downloadFiles env uid db).db uid := by
        unfold existingPaths
        refine List.mem_map.mpr ⟨toDlRecord uid (dlInfoOf env e), ?_, rfl⟩
        exact List.mem_filter.mpr ⟨hrec, by simp [toDlRecord]⟩
      have hc2 : (existingPaths (downloadFiles env uid db).db uid).contains
          (e.dirpath ++ "/" ++ e.name) = true := List.elem_iff.mpr hpath
      unfold dlAccept
      rw [hc2]
      rfl
    · -- the file was filtered or already recorded before the first run
      by_cases hf : (isValidExtension (strLower e.name)
          || isWhatsappPattern (strLower e.name)) = true
      · have hc : (existingPaths db uid).contains
            (e.dirpath ++ "/" ++ e.name) = true := by
          by_contra hc
          apply h1
          unfold dlAccept
          rw [Bool.not_eq_true] at hc
          rw [hc, hf]
          rfl
        have hmem1 : (e.dirpath ++ "/" ++ e.name) ∈ existingPaths db uid :=
          List.elem_iff.mp hc
        have hmem2 : (e.dirpath ++ "/" ++ e.name)
            ∈ existingPaths (downloadFiles env uid db).db uid := by
          show _ ∈ existingPaths (db ++ _) uid
          rw [existingPaths_append]
          exact List.mem_append_left _ hmem1
        have hc2 : (existingPaths (downloadFiles env uid db).db uid).contains
            (e.dirpath ++ "/" ++ e.name) = true := List.elem_iff.mpr hmem2
        unfold dlAccept
        rw [hc2]
        rfl
      · unfold dlAccept
        rw [Bool.not_eq_true] at hf
        rw [hf, Bool.and_false]
  have hnil : ((dlWalk env).filter
      (dlAccept (existingPaths (downloadFiles env uid db).db uid))) = [] := by
    rw [List.filter_eq_nil_iff]
    intro e he
    rw [hall e he]
    exact Bool.false_ne_true
  constructor
  · show dlScan env _ = []
    rw [hscan, hnil]
    rfl
  · show (downloadFiles env uid db).db
        ++ (dlScan env _).map (toDlRecord uid) = _
    rw [hscan, hnil]
    simp

/-! ## Session start `WhatsAppService.initialize_session`
(`app/services/whatsapp_service.py`, lines 130–243), statuses from
`app/models/session.py`. -/

/-- `SessionStatus` of `app/models/session.py`; the specification's
"authenticated" session state corresponds to `active`. -/
inductive SessStatus
  | active
  | inactive
  | expired
  | error
deriving DecidableEq, Repr

/-- A row of the `sessions` table; `qr_code_data` is the QR payload
entry of the free-form `session_data` map. -/
structure SessionRecord where
  id : Nat
  user_id : String
  session_type : String := "whatsapp"
  device_name : String := "Chrome"
  status : SessStatus := .inactive
  qr_code_data : Option String := none
  updated_at : String := ""
deriving DecidableEq, Repr

/-- `table("sessions").update(patch).eq("id", sid)`. -/
def sessUpdate (db : List SessionRecord) (sid : Nat)
    (patch : SessionRecord → SessionRecord) : List SessionRecord :=
  db.map fun r => if r.id = sid then patch r else r

/-- Outcome of the 30-second QR wait plus the canvas extraction script
(lines 190–199): a payload, a `TimeoutException`, or an extraction
error. -/
inductive QrProbe
  | found (data : String)
  | timedOut
  | extractErr (msg : String)
deriving DecidableEq, Repr

/-- External world of `initialize_session`: browser acquisition (a
message when it raises), the id handed back by the session insert
(`none` models an insert returning no data), the authentication probe
at the initial check and at the post-timeout re-check, the QR wait, and
the timestamp. -/
structure SessEnv where
  driverErr : Option String
  insertId : Option Nat
  isAuth1 : Bool
  qrProbe : QrProbe
  isAuth2 : Bool
  tsIso : String

/-- The result dictionary of `initialize_session` (keys that a branch
omits keep their defaults). -/
structure InitResult where
  qr_available : Bool
  session_id : Option Nat := none
  qr_data : Option String := none
  already_authenticated : Bool := false
  error : Option String := none
deriving DecidableEq, Repr

/-- Outcome of one `initialize_session` call: the returned dictionary,
the `sessions` table, and whether a QR payload was ever extracted. -/
structure InitRun where
  result : InitResult
  db : List SessionRecord
  qrProduced : Bool
deriving DecidableEq, Repr

/-- `WhatsAppService.initialize_session()` (lines 130–243). -/
def initializeSession (env : SessEnv) (uid : String) (db : List SessionRecord) :
    InitRun :=
  match env.driverErr with
  | some m =>
    -- lines 241–243: capability acquisition failed
    { result := { qr_available := false, error := some m },
      db := db, qrProduced := false }
  | none =>
    -- lines 156–171: create the session record (`inactive`)
    match env.insertId with
    | none =>
      { result := { qr_available := false,
                    error := some "Failed to create session record" },
        db := db, qrProduced := false }
    | some sid =>
      let db1 := db ++ [{ id := sid, user_id := uid }]
      -- lines 173–188: already authenticated → straight to active
      if env.isAuth1 then
        { result := { qr_available := false, session_id := some sid,
                      already_authenticated := true },
          db := sessUpdate db1 sid fun r =>
            { r with status := .active, updated_at := env.tsIso },
          qrProduced := false }
      else
        -- lines 189–239: wait for the QR element
        match env.qrProbe with
        | .found data =>
          { result := { qr_available := true, session_id := some sid,
                        qr_data := some data },
            db := sessUpdate db1 sid fun r =>
              { r with qr_code_data := some data, updated_at := env.tsIso },
            qrProduced := true }
        | .timedOut =>
          if env.isAuth2 then
            { result := { qr_available := false, session_id := some sid,
                          already_authenticated := true },
              db := sessUpdate db1 sid fun r =>
                { r with status := .active, updated_at := env.tsIso },
              qrProduced := false }
          else
            { result := { qr_available := false,
                          error := some "QR code not found within timeout period" },
              db := db1, qrProduced := false }
        | .extractErr m =>
          { result := { qr_available := false,
                        error := some ("Failed to extract QR code: " ++ m) },
            db := db1, qrProduced := false }

/-! ### Claim C8 -/

/-- C8: when the probe finds the session already authenticated,
`initialize_session` moves the fresh session record straight to the
authenticated status (`active`), returns `already_authenticated = true`
with no QR payload and no error, and never extracts or persists a QR
image: the session record keeps `qr_code_data = none`. -/
theorem c8_already_authenticated (env : SessEnv) (uid : String)
    (db : List SessionRecord) (sid : Nat)
    (h1 : env.driverErr = none)
    (h2 : env.insertId = some sid)
    (h3 : env.isAuth1 = true)
    (hfresh : ∀ r ∈ db, r.id ≠ sid) :
    initializeSession env uid db =
      { result := { qr_available := false, session_id := some sid,
                    qr_data := none, already_authenticated := true,
                    error := none },
        db := sessUpdate (db ++ [{ id := sid, user_id := uid }]) sid fun r =>
          { r with status := .active, updated_at := env.tsIso },
        qrProduced := false }
    ∧ (initializeSession env uid db).qrProduced = false
    ∧ ∀ r ∈ (initializeSession env uid db).db, r.id = sid →
        r.status = .active ∧ r.qr_code_data = none := by
  have hstep : initializeSession env uid db =
      { result := { qr_available := false, session_id := some sid,
                    qr_data := none, already_authenticated := true,
                    error := none },
        db := sessUpdate (db ++ [{ id := sid, user_id := uid }]) sid fun r =>
          { r with status := .active, updated_at := env.tsIso },
        qrProduced := false } := by
    unfold initializeSession
    rw [h1, h2]
    simp [h3]
  refine ⟨hstep, by rw [hstep], ?_⟩
  intro r hr hid
  rw [hstep] at hr
  simp only [sessUpdate, List.map_append, List.mem_append] at hr
  rcases hr with hr | hr
  · obtain ⟨r0, hr0, heq⟩ := List.mem_map.mp hr
    rw [if_neg (hfresh r0 hr0)] at heq
    rw [← heq] at hid
    exact absurd hid (hfresh r0 hr0)
  · simp at hr
    rw [hr]
    exact ⟨rfl, rfl⟩

/-- Environment for the `c8_already_authenticated` witness. -/
def c8Env : SessEnv :=
  { driverErr := none, insertId := some 7, isAuth1 := true,
    qrProbe := .timedOut, isAuth2 := false, tsIso := "TI" }

/-- Witness for `c8_already_authenticated` at a concrete input. -/
theorem c8_already_authenticated_witness :
    initializeSession c8Env "u" [] =
      { result := { qr_available := false, session_id := some 7,
                    qr_data := none, already_authenticated := true,
                    error := none },
        db := [{ id := 7, user_id := "u", status := .active,
                 updated_at := "TI" }],
        qrProduced := false } := by
  exact ((c8_already_authenticated c8Env "u" [] 7 rfl rfl rfl
    (by intro r hr; cases hr)).1).trans (by decide)

/-! ### Claim C4

Every write the pipeline performs on an *existing* `files` row, at its
source location.  Inserts (which create rows with `uploaded = false`)
are creations of new records, not updates of existing ones:
`whatsapp_service.py:530–558`, `database_module.py:29–58`,
`file_service.py:43–55`, `storage_service_helper.py:344–369`. -/

/-- The update patches applied to `files` rows anywhere in the
pipeline:
`file_upload_service.py` lines 65, 83, 126, 139, 149;
`file_upload.py` line 105;
`storage_service.py` lines 70, 117, 155, 170, 225;
`storage_service_helper.py` lines 342 and 397. -/
inductive FilePatch
  | syncMarkNotFound
  | syncMarkDupSynced (url : Option String) (ts : String)
  | syncMarkUploaded (url path ts : String)
  | syncMarkTimeout
  | syncMarkError (msg : String)
  | ulMarkUploaded (url path : String)
  | ssMarkExists (path ts : String)
  | ssMarkUploaded (path url ts : String)
  | ssMarkUploadedAlt (path url ts : String)
  | ssIncAttempts (n : Nat) (ts : String)
  | ssSetUrl (url ts : String)
  | helperMarkUploaded (path url ts : String) (pn u : Option String)
  | helperIncAttempts (n : Nat) (ts : String)
deriving DecidableEq, Repr

/-- Apply one pipeline patch to a row, mirroring each update dict. -/
def applyPatch : FilePatch → FileRecord → FileRecord
  | .syncMarkNotFound, r =>
    { r with upload_error := some "File not found locally" }
  | .syncMarkDupSynced url ts, r =>
    { r with storage_url := url, uploaded := true, upload_error := none,
             updated_at := ts }
  | .syncMarkUploaded url path ts, r =>
    { r with storage_url := some url, storage_path := some path,
             uploaded := true, upload_error := none, updated_at := ts }
  | .syncMarkTimeout, r => { r with upload_error := some "Upload timeout" }
  | .syncMarkError m, r =>
    { r with upload_error := some (String.mk (m.toList.take 255)) }
  | .ulMarkUploaded url path, r =>
    { r with uploaded := true, storage_url := some url,
             storage_path := some path }
  | .ssMarkExists path ts, r =>
    { r with uploaded := true, storage_path := some path, updated_at := ts }
  | .ssMarkUploaded path url ts, r =>
    { r with uploaded := true, storage_path := some path,
             storage_url := some url, updated_at := ts }
  | .ssMarkUploadedAlt path url ts, r =>
    { r with uploaded := true, storage_path := some path,
             storage_url := some url, updated_at := ts }
  | .ssIncAttempts n ts, r =>
    { r with upload_attempts := n + 1, updated_at := ts }
  | .ssSetUrl url ts, r => { r with storage_url := some url, updated_at := ts }
  | .helperMarkUploaded path url ts pn u, r =>
    { r with uploaded := true, storage_path := some path,
             storage_url := some url, updated_at := ts,
             phone_number := pn.getD r.phone_number,
             user_id := u.getD r.user_id }
  | .helperIncAttempts n ts, r =>
    { r with upload_attempts := n + 1, updated_at := ts }

/-- C4: the sync flag only moves forward.  Every update the pipeline
applies to an existing row either leaves `uploaded` untouched or sets
it to true — no pipeline operation writes `uploaded = false` to an
existing record — and the upload coordinator skips records already
marked synced: its per-record step leaves the store, the upload log and
every other counter unchanged, only counting the record as skipped. -/
theorem c4_sync_flag_monotone :
    (∀ (p : FilePatch) (r : FileRecord), r.uploaded = true →
      (applyPatch p r).uploaded = true)
    ∧ (∀ (env : SyncEnv) (uid : String) (st : SyncState) (f : FileRecord),
        f.uploaded = true →
        processOne env uid st f =
          { st with stats := { st.stats with
              skipped_duplicates := st.stats.skipped_duplicates + 1 } }) := by
  constructor
  · intro p r h
    cases p <;> simp [applyPatch, h]
  · intro env uid st f h
    unfold processOne
    rw [h]
    simp

/-- A row already marked synced. -/
def c4rec : FileRecord := { id := 9, user_id := "u", uploaded := true }

/-- Witness for `c4_sync_flag_monotone` at concrete inputs. -/
theorem c4_sync_flag_monotone_witness :
    (applyPatch .syncMarkNotFound c4rec).uploaded = true
    ∧ processOne c1Env "u" { db := [c4rec] } c4rec =
        { db := [c4rec], uploads := [],
          stats := { skipped_duplicates := 1 } } := by
  refine ⟨c4_sync_flag_monotone.1 .syncMarkNotFound c4rec rfl, ?_⟩
  exact (c4_sync_flag_monotone.2 c1Env "u" { db := [c4rec] } c4rec rfl).trans
    (by decide)
